import Mathlib

/-!
Verification development for the data_scribe agent pipeline
(all_agents_tutorials/data_scribe): a shallow embedding of the plan-step
parsing, dispatch, response-aggregation, context merging, research lookup
and schema-graph relevance analysis, together with theorems about them.

Python strings are modelled as Lean `String` and the Python `str`
operations used by the code (`strip`, `lower`, `split`, `split(sep, 1)`,
`startswith`, the `in` substring test, `rstrip`) are given explicit
executable counterparts below, faithful to Python's semantics on the
ASCII data this program manipulates.  A Python function that can raise an
uncaught exception is modelled as returning `Option` (with `none` for the
raise); external collaborators (the LLM-backed agents) are modelled as
oracle parameters of type `String → Except String String`, where
`.error msg` models a call that raised an exception with message `msg`.
-/

namespace DataScribe

/-- ASCII whitespace recognised by Python's `str.strip()`. -/
def pyIsSpace (c : Char) : Bool :=
  c == ' ' || c == '\t' || c == '\n' || c == '\r' || c == '\x0b' || c == '\x0c'

/-- Python `str.strip()`: drop leading and trailing whitespace. -/
def pyStrip (s : String) : String :=
  String.mk (((s.data.dropWhile pyIsSpace).reverse.dropWhile pyIsSpace).reverse)

/-- Python `str.lower()` (ASCII range, which is all this program uses). -/
def pyLower (s : String) : String :=
  String.mk (s.data.map Char.toLower)

/-- Python `str.rstrip(c)`: drop every trailing occurrence of `c`. -/
def pyRstrip (c : Char) (s : String) : String :=
  String.mk ((s.data.reverse.dropWhile (fun d => d == c)).reverse)

/-- Split a character list at every occurrence of `sep` (Python `str.split(sep)`). -/
def splitCharList (sep : Char) : List Char → List (List Char)
  | [] => [[]]
  | c :: rest =>
    let r := splitCharList sep rest
    if c == sep then [] :: r
    else
      match r with
      | [] => [[c]]
      | h :: t => (c :: h) :: t

/-- Python `str.split(sep)` for a one-character separator. -/
def pySplitChar (sep : Char) (s : String) : List String :=
  (splitCharList sep s.data).map String.mk

/-- Split at the first occurrence of `sep`; `none` when `sep` does not occur. -/
def splitOnceList (sep : Char) : List Char → Option (List Char × List Char)
  | [] => none
  | c :: rest =>
    if c == sep then some ([], rest)
    else
      match splitOnceList sep rest with
      | some ab => some (c :: ab.1, ab.2)
      | none => none

/-- Python `str.split(sep, 1)`: `none` models the case where `sep` is absent
(the code guards this with `if not (sep in step): continue`). -/
def pySplitOnce (sep : Char) (s : String) : Option (String × String) :=
  (splitOnceList sep s.data).map (fun ab => (String.mk ab.1, String.mk ab.2))

/-- Substring containment of `needle` in `hay` (Python `needle in hay`). -/
def containsSubList (hay needle : List Char) : Bool :=
  match hay with
  | [] => needle.isEmpty
  | c :: t => needle.isPrefixOf (c :: t) || containsSubList t needle

/-- Python `needle in hay` on strings. -/
def pyContains (hay needle : String) : Bool :=
  containsSubList hay.data needle.data

/-- Python `s.startswith(pre)`. -/
def pyStartsWith (s pre : String) : Bool :=
  pre.data.isPrefixOf s.data

/-! ## Conversation context (supervisor.py)

A context is a Python dict `{"history": [...], "last_question": ...,
"last_response": ...}`.  The `history` key is always read through
`.get("history", [])`, so a missing key behaves exactly like `[]` and we
model it as a plain list.  The `last_question` / `last_response` keys are
read through `.get` with a fallback that depends on KEY PRESENCE (in
`merge_context`), so they are modelled as `Option String` (`none` = key
absent). -/

/-- One history entry: the Python dict `{"question": ..., "response": ...}`. -/
structure Entry where
  question : String
  response : String
deriving DecidableEq

/-- A conversation context dict. -/
structure Context where
  history : List Entry
  last_question : Option String
  last_response : Option String
deriving DecidableEq

/-- The combined history computed by `merge_context` (supervisor.py lines
31-35): `if not old_history or old_history[-1] != new_history[-1]` appends,
otherwise keeps the old history.  When `old_history` is non-empty Python
evaluates `new_history[-1]`, which raises an uncaught `IndexError` if
`new_history` is empty; that raise is modelled as `none`. -/
def merge_combined_history (old_history new_history : List Entry) : Option (List Entry) :=
  if old_history = [] then some (old_history ++ new_history)
  else if new_history = [] then none
  else if old_history.getLast? ≠ new_history.getLast? then some (old_history ++ new_history)
  else some old_history

/-- supervisor.py `merge_context`: merge two context dicts, combining their
histories; `none` models the uncaught `IndexError` described above. -/
def merge_context (old_context new_context : Context) : Option Context :=
  (merge_combined_history old_context.history new_context.history).map fun combined_history =>
    { history := combined_history
      last_question := some ((new_context.last_question).getD ((old_context.last_question).getD ""))
      last_response := some ((new_context.last_response).getD ((old_context.last_response).getD "")) }

/-- The context update performed by `SupervisorAgent.generate_response`
(supervisor.py lines 204-216): append the `(question, answer)` pair and set
`last_question`/`last_response` only when the history is empty or the
question differs from the recorded `last_question`; otherwise leave the
context unchanged.  `answer` is the text produced by the response LLM call,
passed here as an oracle value. -/
def generate_response_context (question answer : String) (context : Context) : Context :=
  if context.history = [] ∨ question ≠ (context.last_question).getD "" then
    { history := context.history ++ [{ question := question, response := answer }]
      last_question := some question
      last_response := some answer }
  else context

/-! ## Step planner (planner_agent.py `PlannerAgent.create_plan`)

The LLM completion is an oracle `Except String String`: `.ok content` is
the text returned by `self.llm.invoke(...)`, `.error msg` models any
exception raised during the call (caught by the surrounding `try`). -/

/-- The fixed clarification fallback returned when no recognised step is found. -/
def plannerFallbackDefault : String :=
  "General: I'd love to help you explore the database! What would you like to know?"

/-- The generic error fallback returned when the completion call raises. -/
def plannerFallbackError : String :=
  "General: Error occurred while creating plan"

def inference_tag : String := "Inference:"

def general_tag : String := "General:"

/-- planner_agent.py line 74-75: split the completion into lines, keep a line
when its stripped form is non-empty and its (unstripped) lowercase form is
not the literal header `plan:`, and strip the kept lines. -/
def parse_plan_lines (content : String) : List String :=
  ((pySplitChar '\n' content).filter
      (fun step => !(pyStrip step == "") && !(pyLower step == "plan:"))).map pyStrip

/-- planner_agent.py line 78-79: a retained Inference step — starts with
`Inference:` and has non-empty content after the first colon. -/
def is_inference_step (step : String) : Bool :=
  pyStartsWith step inference_tag &&
    (match pySplitOnce ':' step with
     | some tc => !(pyStrip tc.2 == "")
     | none => false)

/-- planner_agent.py line 80: a retained General step. -/
def is_general_step (step : String) : Bool :=
  pyStartsWith step general_tag

/-- planner_agent.py `PlannerAgent.create_plan` as a function of the
completion oracle: parse the plan lines, keep Inference steps (with
non-empty content) followed by General steps; fall back to a single fixed
General step when nothing is recognised, and to a single generic error
General step when the completion call raised. -/
def create_plan (completion : Except String String) : List String :=
  match completion with
  | Except.error _ => [plannerFallbackError]
  | Except.ok content =>
    let plan := parse_plan_lines content
    let inference_steps := plan.filter is_inference_step
    let general_steps := plan.filter is_general_step
    if inference_steps ≠ [] then inference_steps ++ general_steps
    else if general_steps ≠ [] then general_steps
    else [plannerFallbackDefault]

/-! ## Research agent (research_agent.py `ResearchAgent`) -/

def sql_text : String :=
  "SQL is a standard language for storing, manipulating and retrieving data in databases."

def database_design_text : String :=
  "Database design best practices include:\n                1. Normalize to at least 3NF to reduce data redundancy\n                2. Use appropriate primary and foreign keys\n                3. Choose correct data types for columns\n                4. Implement proper indexing strategies\n                5. Maintain referential integrity"

def best_practices_text : String :=
  "Database best practices include:\n                1. Normalization to eliminate redundancy\n                2. Proper indexing for frequently queried columns\n                3. Use of constraints for data integrity\n                4. Implementation of proper backup strategies\n                5. Regular performance monitoring"

def performance_text : String :=
  "Database performance optimization includes:\n                1. Strategic index placement\n                2. Query optimization\n                3. Proper data types\n                4. Regular maintenance\n                5. Monitoring and tuning"

def normalization_text : String :=
  "Database normalization rules:\n                1. First Normal Form (1NF): Eliminate repeating groups\n                2. Second Normal Form (2NF): Remove partial dependencies\n                3. Third Normal Form (3NF): Remove transitive dependencies\n                4. BCNF: Remove all functional dependencies"

def indexing_text : String :=
  "Indexing strategies:\n                1. Index primary keys automatically\n                2. Index foreign key columns\n                3. Index frequently queried columns\n                4. Avoid over-indexing\n                5. Monitor index usage"

/-- research_agent.py `self.mock_knowledge_base`, in dict insertion order. -/
def mock_knowledge_base : List (String × String) :=
  [("sql", sql_text),
   ("database_design", database_design_text),
   ("best_practices", best_practices_text),
   ("performance", performance_text),
   ("normalization", normalization_text),
   ("indexing", indexing_text)]

/-- research_agent.py line 58: a topic matches when any underscore-separated
keyword fragment of the topic occurs as a substring of the lowercased query. -/
def topic_matches (query topic : String) : Bool :=
  (pySplitChar '_' topic).any (fun keyword => pyContains (pyLower query) keyword)

def researchNoInfo : String :=
  "I found no specific information about this topic in my knowledge base."

/-- research_agent.py `ResearchAgent.research`: collect the canned text of
every matching topic (falling back to the fixed no-information text) and
join the parts between a fixed header and footer.  The body performs no
fallible call, so the surrounding `try` never fires and the function is
total. -/
def research (query : String) : String :=
  let response_parts :=
    mock_knowledge_base.filterMap
      (fun ti => if topic_matches query ti.1 then some ti.2 else none)
  let response_parts :=
    if response_parts = [] then [researchNoInfo] else response_parts
  String.intercalate "\n"
    (["Research Findings:", "-------------------"] ++ response_parts ++ ["-------------------"])

/-! ## Step dispatcher (supervisor.py `SupervisorAgent.execute_plan`)

The two fallible collaborators (`DBAgent.query` and
`ResearchAgent.research` as called through the dispatcher's `try` blocks)
are oracle parameters of type `Handler`; `.error msg` models a call that
raised an exception whose message is `msg`. -/

abbrev Handler := String → Except String String

/-- The dispatcher's step vocabulary (supervisor.py lines 139-160). -/
inductive StepKind where
  | database
  | research
  | general
deriving DecidableEq

/-- supervisor.py lines 132-137 and the `if/elif` chain: a step is handled
when it contains a colon and the part before the first colon, lowercased
and stripped, is `research`, `database` or `general`; the content is the
part after the first colon, stripped.  Any other step is skipped with no
result. -/
def classify_step (step : String) : Option (StepKind × String) :=
  match pySplitOnce ':' step with
  | none => none
  | some tc =>
    let step_type := pyStrip (pyLower tc.1)
    let content := pyStrip tc.2
    if step_type == "research" then some (StepKind.research, content)
    else if step_type == "database" then some (StepKind.database, content)
    else if step_type == "general" then some (StepKind.general, content)
    else none

/-- The result string appended for one handled step: the success rendering
or the per-kind error rendering of supervisor.py lines 144, 147, 153, 156,
160. -/
def render_entry (db_query research_handler : Handler) (step : String)
    (k : StepKind) (content : String) : String :=
  match k with
  | StepKind.research =>
    match research_handler content with
    | Except.ok result => "Step: " ++ step ++ "\nResult: " ++ result
    | Except.error e => "Step: " ++ step ++ "\nError: Research failed - " ++ e
  | StepKind.database =>
    match db_query content with
    | Except.ok result => "Step: " ++ step ++ "\nResult: " ++ result
    | Except.error e => "Step: " ++ step ++ "\nError: Database query failed - " ++ e
  | StepKind.general => "Step: " ++ step ++ "\nResult: " ++ content

/-- The dispatcher loop of supervisor.py lines 125-160: walk the plan in
order, appending each handled step's entry to the list for its kind
(`db_results`, `research_results`, `general_results`). -/
def execute_steps (db_query research_handler : Handler) :
    List String → List String × List String × List String
  | [] => ([], [], [])
  | step :: rest =>
    let r := execute_steps db_query research_handler rest
    match classify_step step with
    | none => r
    | some (StepKind.database, content) =>
      (render_entry db_query research_handler step StepKind.database content :: r.1, r.2.1, r.2.2)
    | some (StepKind.research, content) =>
      (r.1, render_entry db_query research_handler step StepKind.research content :: r.2.1, r.2.2)
    | some (StepKind.general, content) =>
      (r.1, r.2.1, render_entry db_query research_handler step StepKind.general content :: r.2.2)

/-- supervisor.py line 162: `all_results = db_results + research_results +
general_results` — the full per-step result sequence the dispatcher
produces. -/
def execute_plan_results (db_query research_handler : Handler) (plan : List String) : List String :=
  let r := execute_steps db_query research_handler plan
  r.1 ++ r.2.1 ++ r.2.2

/-- supervisor.py lines 164-174: the `db_results` string placed in the state
— a single synthetic message when no results were produced, otherwise the
results joined with blank lines. -/
def execute_plan_db_results (db_query research_handler : Handler) (plan : List String) : String :=
  let all_results := execute_plan_results db_query research_handler plan
  if all_results = [] then
    "No results were generated as no valid steps were found."
  else
    String.intercalate "\n\n" all_results

/-- The entries of one kind, in plan order (specification of what the
dispatcher's per-kind accumulation lists end up holding). -/
def kind_group (db_query research_handler : Handler) (k : StepKind) (plan : List String) :
    List String :=
  plan.filterMap fun step =>
    match classify_step step with
    | some kc =>
      if kc.1 = k then some (render_entry db_query research_handler step kc.1 kc.2) else none
    | none => none

/-! ## Schema graph relevance analysis
(all_in_one.py `InferenceAgent.analyze_question_with_graph`)

The networkx graph built by `DiscoveryAgent.parseJson` has one node per
table (attribute `tableName`) and one node per column (attributes
`columnName`, `columnType`, `isOptional`); nodes and edges are listed in
insertion order, which is the iteration order networkx reports them in. -/

inductive NodeData where
  | table (tableName : String)
  | column (columnName : String) (columnType : String) (isOptional : Bool)
deriving DecidableEq

structure SchemaGraph where
  nodes : List (Nat × NodeData)
  edges : List (Nat × Nat)
deriving DecidableEq

/-- The attribute dict of node `n` (`db_graph.nodes[n]`). -/
def nodeData (g : SchemaGraph) (n : Nat) : Option NodeData :=
  (g.nodes.find? (fun p => p.1 == n)).map Prod.snd

/-- `db_graph.neighbors(n)`: the other endpoint of every edge incident to
`n`, in edge insertion order. -/
def neighbors (g : SchemaGraph) (n : Nat) : List Nat :=
  g.edges.filterMap fun e =>
    if e.1 == n then some e.2 else if e.2 == n then some e.1 else none

/-- A matched column dict `{'name': ..., 'type': ..., 'table': ...}`. -/
structure ColumnMatch where
  name : String
  colType : String
  table : String
deriving DecidableEq

/-- A matched table dict `{'name': ..., 'columns': [...]}`. -/
structure TableMatch where
  name : String
  columns : List ColumnMatch
deriving DecidableEq

/-- The analysis dict built by `analyze_question_with_graph`; the
`relationships` and `columns` entries are initialised empty and never
appended to by the code. -/
structure GraphAnalysis where
  tables : List TableMatch
  relationships : List String
  columns : List ColumnMatch
  possible_paths : List (List String)
deriving DecidableEq

/-- all_in_one.py lines 303-332: scan the nodes in order; a table node is
relevant when its lowercased name, the name with trailing `s` stripped, or
the name with `s` appended occurs in the lowercased question; its relevant
columns are the neighbouring column nodes whose lowercased name occurs in
the question. -/
def matched_tables (g : SchemaGraph) (question_lower : String) : List TableMatch :=
  g.nodes.filterMap fun p =>
    match p.2 with
    | NodeData.column _ _ _ => none
    | NodeData.table tn =>
      let table_name := pyLower tn
      if pyContains question_lower table_name ||
         pyContains question_lower (pyRstrip 's' table_name) ||
         pyContains question_lower (table_name ++ "s") then
        some
          { name := tn
            columns := (neighbors g p.1).filterMap fun nb =>
              match nodeData g nb with
              | some (NodeData.column cn ct _) =>
                if pyContains question_lower (pyLower cn) then
                  some { name := cn, colType := ct, table := tn }
                else none
              | _ => none }
      else none

/-- The label the path printer gives a node (all_in_one.py lines 346-350);
a node with neither attribute contributes nothing. -/
def node_label (g : SchemaGraph) (n : Nat) : Option String :=
  match nodeData g n with
  | some (NodeData.table tn) => some ("Table: " ++ tn)
  | some (NodeData.column cn _ _) => some ("Column: " ++ cn)
  | none => none

/-- Breadth-first search for `nx.shortest_path` on an unweighted graph:
explore paths in queue order, fuel-bounded; the fuel passed by
`shortest_path` exceeds the number of possible dequeues. -/
def bfsAux (g : SchemaGraph) (target : Nat) :
    Nat → List (List Nat) → List Nat → Option (List Nat)
  | 0, _, _ => none
  | _ + 1, [], _ => none
  | fuel + 1, path :: queue, visited =>
    match path with
    | [] => bfsAux g target fuel queue visited
    | cur :: _ =>
      if cur = target then some path.reverse
      else
        let fresh := (neighbors g cur).filter (fun m => !(visited.contains m))
        bfsAux g target fuel (queue ++ fresh.map (fun m => m :: path)) (visited ++ fresh)

/-- `nx.shortest_path(db_graph, start, end)`: `none` models the
`NetworkXNoPath` exception, which the caller catches and skips. -/
def shortest_path (g : SchemaGraph) (start target : Nat) : Option (List Nat) :=
  bfsAux g target (2 * g.edges.length + g.nodes.length + 2) [[start]] [start]

/-- The ordered pairs visited by `for i, start in enumerate(table_nodes):
for end in table_nodes[i+1:]`. -/
def orderedPairs : List Nat → List (Nat × Nat)
  | [] => []
  | x :: xs => xs.map (fun y => (x, y)) ++ orderedPairs xs

/-- all_in_one.py lines 334-354: when more than one table matched, collect
the labelled shortest path between every pair of matched table nodes,
skipping unconnected pairs. -/
def possible_paths_of (g : SchemaGraph) (table_nodes : List Nat) : List (List String) :=
  (orderedPairs table_nodes).filterMap fun se =>
    (shortest_path g se.1 se.2).map fun path => path.filterMap (node_label g)

/-- all_in_one.py `InferenceAgent.analyze_question_with_graph`: pure
function of the graph and the question. -/
def analyze_question_with_graph (g : SchemaGraph) (question : String) : GraphAnalysis :=
  let question_lower := pyLower question
  let tables := matched_tables g question_lower
  let possible_paths :=
    if tables.length > 1 then
      let names := tables.map (fun t => t.name)
      let table_nodes := g.nodes.filterMap fun p =>
        match p.2 with
        | NodeData.table tn => if names.contains tn then some p.1 else none
        | _ => none
      possible_paths_of g table_nodes
    else []
  { tables := tables, relationships := [], columns := [], possible_paths := possible_paths }

/-- A small schema graph as `DiscoveryAgent.parseJson` builds it from a
discovery answer with tables `albums(AlbumId, Title, ArtistId)` and
`artists(ArtistId, Name)` and the foreign key `albums.ArtistId →
artists.ArtistId`: table ids first (1, 2), column ids numbered after all
table ids, nodes and edges in insertion order. -/
def albums_graph : SchemaGraph :=
  { nodes :=
      [(1, NodeData.table "albums"),
       (4, NodeData.column "AlbumId" "INTEGER" false),
       (5, NodeData.column "Title" "NVARCHAR(160)" false),
       (6, NodeData.column "ArtistId" "INTEGER" false),
       (2, NodeData.table "artists"),
       (7, NodeData.column "ArtistId" "INTEGER" false),
       (8, NodeData.column "Name" "NVARCHAR(120)" true)]
    edges := [(1, 4), (1, 5), (1, 6), (2, 7), (2, 8), (6, 7)] }

/-! ## Theorems -/

theorem isPrefixOf_append_self {α : Type} [DecidableEq α] (l t : List α) :
    l.isPrefixOf (l ++ t) = true := by
  induction l with
  | nil => simp [List.isPrefixOf]
  | cons a l ih => simp [List.isPrefixOf, ih]

/-- C10: `merge_context` is not total: whenever the old context's history is
non-empty and the new context's history is empty, the unguarded
`new_history[-1]` raises an uncaught `IndexError` (modelled as `none`)
instead of returning a merged context. -/
theorem merge_context_raises_on_empty_new_history (old_context new_context : Context)
    (h1 : old_context.history ≠ []) (h2 : new_context.history = []) :
    merge_context old_context new_context = none := by
  unfold merge_context merge_combined_history
  rw [if_neg h1, h2]
  rfl

theorem merge_context_raises_on_empty_new_history_witness :
    merge_context
      { history := [{ question := "q", response := "r" }], last_question := none,
        last_response := none }
      { history := [], last_question := none, last_response := none } = none :=
  merge_context_raises_on_empty_new_history
    { history := [{ question := "q", response := "r" }], last_question := none,
      last_response := none }
    { history := [], last_question := none, last_response := none }
    (by decide) rfl

/-- C4 counterexample: the claim quantifies over every pair of contexts,
but for an old context with one history entry and a new context with empty
history `merge_context` raises an uncaught `IndexError` (modelled `none`)
instead of returning a merged context with the claimed shape. -/
theorem merge_context_not_always_defined :
    merge_context
      { history := [{ question := "x", response := "y" }], last_question := none,
        last_response := none }
      { history := [], last_question := none, last_response := none } = none := by
  decide

/-- C4 amended: whenever `merge_context` returns a merged context (every
pair of contexts except old history non-empty with new history empty,
where it raises — see C10), the merged
history is the old history with the new history appended exactly when the
old history is empty or the two last entries differ (otherwise the old
history unchanged); the old history is always a prefix of the merged
history (no entry deleted or reordered); and `last_question` /
`last_response` take the newer snapshot's value when present, falling back
to the older one (and to `""`). -/
theorem merge_context_spec (old_context new_context merged : Context)
    (h : merge_context old_context new_context = some merged) :
    (merged.history =
      if old_context.history = [] ∨
          old_context.history.getLast? ≠ new_context.history.getLast? then
        old_context.history ++ new_context.history
      else old_context.history) ∧
    (old_context.history.isPrefixOf merged.history = true) ∧
    merged.last_question =
      some ((new_context.last_question).getD ((old_context.last_question).getD "")) ∧
    merged.last_response =
      some ((new_context.last_response).getD ((old_context.last_response).getD "")) := by
  unfold merge_context at h
  obtain ⟨ch, hch, hm⟩ := Option.map_eq_some'.mp h
  subst hm
  unfold merge_combined_history at hch
  refine ⟨?_, ?_, rfl, rfl⟩ <;>
  · split_ifs at hch with ho hn hol
    all_goals cases hch
    all_goals
      first
        | (rw [if_pos (Or.inl ho)])
        | (rw [if_pos (Or.inr hol)])
        | (rw [if_neg (by push_neg; exact ⟨ho, not_not.mp hol⟩)])
        | (exact isPrefixOf_append_self _ _)
        | (have hp := isPrefixOf_append_self old_context.history ([] : List Entry);
           rw [List.append_nil] at hp; exact hp)

theorem merge_context_spec_witness :
    (([{ question := "q1", response := "r1" }] : List Entry)).isPrefixOf
      [{ question := "q1", response := "r1" }, { question := "q2", response := "r2" }] = true :=
  (merge_context_spec
    { history := [{ question := "q1", response := "r1" }], last_question := some ("q1"),
      last_response := some ("r1") }
    { history := [{ question := "q2", response := "r2" }], last_question := some ("q2"),
      last_response := none }
    { history := [{ question := "q1", response := "r1" }, { question := "q2", response := "r2" }],
      last_question := some ("q2"), last_response := some ("r1") }
    (by decide)).2.1

/-- C3: two successive `generate_response` context updates with the same
question grow the history by at most one entry — the second call finds the
question equal to the recorded `last_question` (and the history non-empty)
and does not append a second pair. -/
theorem generate_response_history_grows_at_most_one (question answer1 answer2 : String)
    (context : Context) :
    ((generate_response_context question answer2
        (generate_response_context question answer1 context)).history).length ≤
      context.history.length + 1 := by
  unfold generate_response_context
  by_cases h : context.history = [] ∨ question ≠ (context.last_question).getD ""
  · rw [if_pos h, if_neg]
    · simp
    · push_neg
      exact ⟨by simp, rfl⟩
  · rw [if_neg h, if_neg h]
    exact Nat.le_succ _

/-- C5: `create_plan` never raises and always returns a non-empty plan:
a failed completion call yields exactly the single generic-error General
step, and a successful completion in which no line is retained as an
Inference or General step yields exactly the single fixed clarification
General step. -/
theorem create_plan_total_with_fallbacks (completion : Except String String) :
    create_plan completion ≠ [] ∧
    (∀ e, completion = Except.error e → create_plan completion = [plannerFallbackError]) ∧
    (∀ content, completion = Except.ok content →
      (parse_plan_lines content).filter is_inference_step = [] →
      (parse_plan_lines content).filter is_general_step = [] →
      create_plan completion = [plannerFallbackDefault]) := by
  refine ⟨?_, ?_, ?_⟩
  · cases completion with
    | error e => simp [create_plan]
    | ok content =>
      simp only [create_plan]
      by_cases hi : (parse_plan_lines content).filter is_inference_step ≠ []
      · rw [if_pos hi]
        intro hc
        exact hi (List.append_eq_nil.mp hc).1
      · rw [if_neg hi]
        by_cases hg : (parse_plan_lines content).filter is_general_step ≠ []
        · rw [if_pos hg]
          exact hg
        · rw [if_neg hg]
          simp
  · intro e he
    rw [he]
    rfl
  · intro content hc hi hg
    rw [hc]
    simp [create_plan, hi, hg]

theorem create_plan_total_with_fallbacks_witness :
    create_plan (Except.ok ("hello world")) = [plannerFallbackDefault] :=
  (create_plan_total_with_fallbacks (Except.ok ("hello world"))).2.2
    ("hello world") rfl (by decide) (by decide)

/-- C6 counterexample: the planner's parsing does NOT turn the completion
text `"Database: Count all tables\nGeneral: done"` into the claimed
two-step plan — `Database:` is not in this planner's tag vocabulary
(`Inference:`/`General:` only), so the Database line is discarded. -/
theorem create_plan_database_line_not_two_steps :
    create_plan (Except.ok ("Database: Count all tables\nGeneral: done")) ≠
      [("Database: Count all tables"), ("General: done")] := by
  decide

/-- C6 amended: the completion text `"Database: Count all tables\nGeneral:
done"` parses to the single-step plan `["General: done"]`: a line whose
prefix is not a recognised kind is discarded. -/
theorem create_plan_database_line_single_general :
    create_plan (Except.ok ("Database: Count all tables\nGeneral: done")) =
      [("General: done")] := by
  decide

/-- C8 counterexample: for the query `"best practices for indexing"`, the
research handler does not return the canned indexing-advice text verbatim —
the keyword `best` (topic `best_practices`) also matches, and the response
wraps all matched texts in a fixed header and footer. -/
theorem research_indexing_not_verbatim :
    research ("best practices for indexing") ≠ indexing_text := by
  decide

/-- C8 amended: `research` is a total function (never fails); a topic
matches by case-insensitive substring containment of any underscore-split
keyword fragment against the query; when no topic matches the response is
the fixed no-information text between the fixed header and footer; and for
the query `"best practices for indexing"` both `best_practices` (keyword
`best`) and `indexing` (keyword `indexing`) match, and the response embeds
both canned texts verbatim, in knowledge-base order, between the header and
footer. -/
theorem research_matching_and_fallback :
    (∀ query,
      mock_knowledge_base.filterMap
          (fun ti => if topic_matches query ti.1 then some ti.2 else none) = [] →
      research query =
        "Research Findings:\n-------------------\n" ++ researchNoInfo ++
          "\n-------------------") ∧
    research ("best practices for indexing") =
      "Research Findings:\n-------------------\n" ++ best_practices_text ++ "\n" ++
        indexing_text ++ "\n-------------------" := by
  constructor
  · intro query h
    unfold research
    rw [h]
    rfl
  · set_option maxRecDepth 4000 in decide

theorem research_matching_and_fallback_witness :
    research ("zzzz") =
      "Research Findings:\n-------------------\n" ++ researchNoInfo ++ "\n-------------------" :=
  (research_matching_and_fallback).1 ("zzzz") (by decide)

theorem execute_steps_eq (db_query research_handler : Handler) (plan : List String) :
    execute_steps db_query research_handler plan =
      (kind_group db_query research_handler StepKind.database plan,
       kind_group db_query research_handler StepKind.research plan,
       kind_group db_query research_handler StepKind.general plan) := by
  induction plan with
  | nil => rfl
  | cons step rest ih =>
    simp only [execute_steps, kind_group, List.filterMap_cons, ih]
    cases h : classify_step step with
    | none => simp [h]
    | some kc =>
      obtain ⟨k, c⟩ := kc
      cases k <;> simp [h]

theorem kind_group_length (db_query research_handler : Handler) (plan : List String) :
    (kind_group db_query research_handler StepKind.database plan).length +
      (kind_group db_query research_handler StepKind.research plan).length +
      (kind_group db_query research_handler StepKind.general plan).length =
      plan.countP (fun step => (classify_step step).isSome) := by
  induction plan with
  | nil => rfl
  | cons step rest ih =>
    simp only [kind_group, List.filterMap_cons, List.countP_cons] at ih ⊢
    cases h : classify_step step with
    | none => simpa [h] using ih
    | some kc =>
      obtain ⟨k, c⟩ := kc
      cases k <;> simp [h] <;> omega

theorem mem_kind_group (db_query research_handler : Handler) (plan : List String)
    (t : String) (k : StepKind) (c : String) (hmem : t ∈ plan)
    (hc : classify_step t = some (k, c)) :
    render_entry db_query research_handler t k c ∈
      kind_group db_query research_handler k plan := by
  unfold kind_group
  exact List.mem_filterMap.mpr ⟨t, hmem, by simp [hc]⟩

theorem mem_execute_plan_results (db_query research_handler : Handler) (plan : List String)
    (t : String) (k : StepKind) (c : String) (hmem : t ∈ plan)
    (hc : classify_step t = some (k, c)) :
    render_entry db_query research_handler t k c ∈
      execute_plan_results db_query research_handler plan := by
  unfold execute_plan_results
  rw [execute_steps_eq]
  have h := mem_kind_group db_query research_handler plan t k c hmem hc
  cases k <;> simp only [List.mem_append] <;> tauto

/-- C1 counterexample: the dispatcher does NOT return the results in plan
order — for the plan `["Research: a", "Database: b"]` with both handlers
succeeding, the database result comes first even though the research step
precedes it in the plan. -/
theorem execute_plan_results_regroups_by_kind :
    execute_plan_results (fun s => Except.ok s) (fun s => Except.ok s)
        [("Research: a"), ("Database: b")] =
      [("Step: Database: b\nResult: b"), ("Step: Research: a\nResult: a")] ∧
    execute_plan_results (fun s => Except.ok s) (fun s => Except.ok s)
        [("Research: a"), ("Database: b")] ≠
      [("Step: Research: a\nResult: a"), ("Step: Database: b\nResult: b")] := by
  constructor
  · decide
  · decide

/-- C1 amended: `execute_plan` produces exactly one result per step whose
kind is recognised by the dispatcher (database, research or general —
matched case-insensitively on the stripped text before the first colon),
but the result sequence is regrouped by kind — all database results first,
then all research results, then all general results, each group preserving
the plan's relative order; a step with no colon or an unrecognised kind
(e.g. `Inference:`) contributes no result. -/
theorem execute_plan_results_grouped (db_query research_handler : Handler)
    (plan : List String) :
    execute_plan_results db_query research_handler plan =
      kind_group db_query research_handler StepKind.database plan ++
        kind_group db_query research_handler StepKind.research plan ++
        kind_group db_query research_handler StepKind.general plan ∧
    (execute_plan_results db_query research_handler plan).length =
      plan.countP (fun step => (classify_step step).isSome) := by
  have h : execute_plan_results db_query research_handler plan =
      kind_group db_query research_handler StepKind.database plan ++
        kind_group db_query research_handler StepKind.research plan ++
        kind_group db_query research_handler StepKind.general plan := by
    unfold execute_plan_results
    rw [execute_steps_eq]
  refine ⟨h, ?_⟩
  rw [h]
  simpa [List.length_append, Nat.add_assoc] using
    kind_group_length db_query research_handler plan

/-- C2: a step whose dispatched handler raises is recorded as the per-kind
error entry carrying the exception message, and every other recognised step
of the plan (in particular every subsequent one) still contributes its own
result — one failing step never aborts the batch. -/
theorem execute_plan_partial_failure_isolation (db_query research_handler : Handler)
    (plan : List String) (step content msg : String) (hmem : step ∈ plan) :
    (classify_step step = some (StepKind.research, content) →
      research_handler content = Except.error msg →
      ("Step: " ++ step ++ "\nError: Research failed - " ++ msg) ∈
        execute_plan_results db_query research_handler plan) ∧
    (classify_step step = some (StepKind.database, content) →
      db_query content = Except.error msg →
      ("Step: " ++ step ++ "\nError: Database query failed - " ++ msg) ∈
        execute_plan_results db_query research_handler plan) ∧
    (∀ t, t ∈ plan → ∀ k c, classify_step t = some (k, c) →
      render_entry db_query research_handler t k c ∈
        execute_plan_results db_query research_handler plan) := by
  refine ⟨?_, ?_, ?_⟩
  · intro hc he
    have h := mem_execute_plan_results db_query research_handler plan step
      StepKind.research content hmem hc
    simpa [render_entry, he] using h
  · intro hc he
    have h := mem_execute_plan_results db_query research_handler plan step
      StepKind.database content hmem hc
    simpa [render_entry, he] using h
  · intro t hmem2 k c hc
    exact mem_execute_plan_results db_query research_handler plan t k c hmem2 hc

theorem execute_plan_partial_failure_isolation_witness :
    ("Step: " ++ ("Research: x") ++ "\nError: Research failed - " ++ ("boom")) ∈
      execute_plan_results (fun s => Except.ok s) (fun _ => Except.error ("boom"))
        [("Research: x"), ("General: done")] :=
  (execute_plan_partial_failure_isolation (fun s => Except.ok s)
      (fun _ => Except.error ("boom")) [("Research: x"), ("General: done")]
      ("Research: x") ("x") ("boom") (by decide)).1 (by decide) rfl

/-- C7: when no step of the plan is recognised by the dispatcher (in
particular for the empty plan), `execute_plan` produces an empty result
sequence and short-circuits to the single synthetic message explaining that
no valid steps were found. -/
theorem execute_plan_empty_after_filtering (db_query research_handler : Handler)
    (plan : List String) (h : ∀ step, step ∈ plan → classify_step step = none) :
    execute_plan_results db_query research_handler plan = [] ∧
    execute_plan_db_results db_query research_handler plan =
      "No results were generated as no valid steps were found." := by
  have hres : execute_plan_results db_query research_handler plan = [] := by
    unfold execute_plan_results
    rw [execute_steps_eq]
    have hk : ∀ k, kind_group db_query research_handler k plan = [] := by
      intro k
      unfold kind_group
      rw [List.filterMap_eq_nil_iff]
      intro a ha
      rw [h a ha]
    simp [hk]
  refine ⟨hres, ?_⟩
  unfold execute_plan_db_results
  rw [hres]
  rfl

theorem execute_plan_empty_after_filtering_witness :
    execute_plan_db_results (fun s => Except.ok s) (fun s => Except.ok s)
        [("Inference: count rows")] =
      "No results were generated as no valid steps were found." :=
  (execute_plan_empty_after_filtering (fun s => Except.ok s) (fun s => Except.ok s)
      [("Inference: count rows")] (by decide)).2

/-- C9: `analyze_question_with_graph` is a pure function of the graph and
the question; shortest relationship paths are computed only when more than
one table matches, and for the question `"How many albums are in the albums
table?"` over a graph containing an `albums` table node it returns exactly
the `albums` table (with no matched columns) and an empty list of
relationship paths. -/
theorem analyze_question_single_table_no_paths :
    (∀ (g : SchemaGraph) (question : String),
      (matched_tables g (pyLower question)).length ≤ 1 →
      (analyze_question_with_graph g question).possible_paths = []) ∧
    analyze_question_with_graph albums_graph ("How many albums are in the albums table?") =
      { tables := [{ name := ("albums"), columns := [] }], relationships := [], columns := [],
        possible_paths := [] } := by
  constructor
  · intro g question h
    unfold analyze_question_with_graph
    simp only
    rw [if_neg (by omega)]
  · set_option maxRecDepth 4000 in decide

theorem analyze_question_single_table_no_paths_witness :
    (analyze_question_with_graph albums_graph
        ("How many albums are in the albums table?")).possible_paths = [] :=
  (analyze_question_single_table_no_paths).1 albums_graph
    ("How many albums are in the albums table?")
    (by set_option maxRecDepth 4000 in decide)

end DataScribe
